import Mathlib

/-!
Verification development for the `utils-databricks` repository.

The repository consists of two Python modules driving an external Spark or
Delta engine:
  * `custom_utils/quality/quality.py` — `DataQualityManager`, a sequence of
    data-quality validation passes over a DataFrame;
  * `custom_utils/dp_storage/merge_management.py` — helpers that build and
    run a Delta `MERGE INTO` statement and display the changed rows.

We shallowly embed the repository's own logic.  A DataFrame is a list of
rows; a row is an association list from column names to values.  Engine
calls (`spark.sql`, `df.count`, …) that the Python code wraps in
`try/except` are represented by `Except Exc` results, with the engine's
answer passed in as an argument where the code treats it as opaque.
Numeric column values are embedded as integers: none of the checked
properties depends on floating-point rounding, only on order comparisons.
-/

/-- Exceptions that flow through the embedded code.  Python distinguishes
exception classes and identities; we keep the class as a constructor and the
message as its payload, so "re-raises the very same exception" becomes
equality of `Exc` values while "wraps in a new RuntimeError" builds a
different `Exc`. -/
inductive Exc where
  | runtimeError (msg : String)
  | analysisException (msg : String)
  | typeError (msg : String)
deriving DecidableEq, Repr

/-- The message carried by an exception (what `str(e)` interpolates). -/
def excMsg : Exc → String
  | .runtimeError m => m
  | .analysisException m => m
  | .typeError m => m

/-- A cell value of a Spark DataFrame: SQL NULL, an integral number, or a
string (file names, dates, …). -/
inductive Value where
  | null
  | int (n : Int)
  | str (s : String)
deriving DecidableEq, Repr

/-- A row is an association list from column names to values. -/
abbrev Row : Type := List (String × Value)

/-- A DataFrame is its list of rows. -/
abbrev DataFrame : Type := List Row

/-- Column projection `df[col]`.  A column absent from the row reads as
NULL (the checks are only ever called on columns of the frame's schema). -/
def getCol (r : Row) (c : String) : Value :=
  match List.lookup c r with
  | some v => v
  | none => Value.null

/-- `F.col(c) < n` on a numeric literal, with SQL three-valued logic
collapsed for filtering: a NULL (or non-numeric) comparison keeps the row
out of the filter, i.e. counts as `false`. -/
def vltInt (v : Value) (n : Int) : Bool :=
  match v with
  | .int m => decide (m < n)
  | _ => false

/-- `F.col(c) > n` on a numeric literal, NULL filtering to `false`. -/
def vgtInt (v : Value) (n : Int) : Bool :=
  match v with
  | .int m => decide (m > n)
  | _ => false

/-- `F.col(c1) > F.col(c2)` between two cells: integers and strings compare
within their type, any comparison touching NULL (or mixing types) filters
to `false`, as Spark's three-valued filter does. -/
def vgtVal (a b : Value) : Bool :=
  match a, b with
  | .int m, .int n => decide (m > n)
  | .str s, .str t => decide (s > t)
  | _, _ => false

/-- `df[c1] == df[c2]` as used by the join condition: NULL equals nothing
(including NULL), mixed types compare unequal. -/
def veqVal (a b : Value) : Bool :=
  match a, b with
  | .int m, .int n => decide (m = n)
  | .str s, .str t => decide (s = t)
  | _, _ => false

/-- `True` iff the embedded `Except` result models a raised exception. -/
def raisesB : Except Exc α → Bool
  | .error _ => true
  | .ok _ => false

/-! ## `DataQualityManager._check_for_duplicates`

```python
duplicates_df = df.groupBy(key_columns).count().filter(F.col('count') > 1)
duplicate_count = duplicates_df.count()
if duplicate_count > 0: self._raise_error("Duplicate check failed: ...")
```
with the whole body inside `try: ... except Exception as e:
self._raise_error(f"Failed to check for duplicates: {e}")`. -/

/-- The tuple of key-column values of a row (the groupBy key). -/
def keyOf (keyColumns : List String) (r : Row) : List Value :=
  keyColumns.map (fun c => getCol r c)

/-- `df.groupBy(key_columns).count().filter(count > 1).count()`: the number
of distinct key tuples occurring in more than one row. -/
def duplicateCount (df : DataFrame) (keyColumns : List String) : Nat :=
  (((df.map (keyOf keyColumns)).dedup).filter
    (fun k => decide (1 < (df.map (keyOf keyColumns)).count k))).length

/-- Body of `_check_for_duplicates` with the engine's aggregation result
abstracted as `countResult` (the engine may itself fail).  The `try/except`
catches everything — including the `RuntimeError` that `_raise_error`
raises on a positive count — and re-raises a fresh `RuntimeError` built
from the caught exception's message. -/
def checkForDuplicatesRun (countResult : Except Exc Nat)
    (keyColumns : List String) : Except Exc Unit :=
  let body : Except Exc Unit :=
    match countResult with
    | .error e => .error e
    | .ok n =>
      if 0 < n then
        .error (.runtimeError ("Duplicate check failed: Found " ++ toString n
          ++ " duplicates based on key columns " ++ toString keyColumns ++ "."))
      else
        .ok ()
  match body with
  | .ok u => .ok u
  | .error e => .error (.runtimeError ("Failed to check for duplicates: " ++ excMsg e))

/-- `_check_for_duplicates` on a well-formed frame, where the in-model
aggregation itself cannot fail. -/
def checkForDuplicates (df : DataFrame) (keyColumns : List String) : Except Exc Unit :=
  checkForDuplicatesRun (.ok (duplicateCount df keyColumns)) keyColumns

/-! ## `DataQualityManager._check_for_nulls`

Per column: `null_count = df.filter(F.col(col).isNull()).count()`, raise on
a positive count; each column's work sits in its own `try/except` that
rewraps into a fresh `RuntimeError`. -/

/-- `df.filter(F.col(c).isNull()).count()`. -/
def nullCount (df : DataFrame) (c : String) : Nat :=
  df.countP (fun r => decide (getCol r c = Value.null))

/-- One iteration of the `_check_for_nulls` loop for column `c`. -/
def checkColumnNulls (df : DataFrame) (c : String) : Except Exc Unit :=
  let body : Except Exc Unit :=
    if 0 < nullCount df c then
      .error (.runtimeError ("Null values check failed: Column " ++ c ++ " has "
        ++ toString (nullCount df c) ++ " missing values."))
    else
      .ok ()
  match body with
  | .ok u => .ok u
  | .error e =>
    .error (.runtimeError ("Failed to check for null values in column " ++ c
      ++ ": " ++ excMsg e))

/-- `_check_for_nulls`: the loop over `critical_columns`, stopping at the
first raising column. -/
def checkForNulls (df : DataFrame) : List String → Except Exc Unit
  | [] => .ok ()
  | c :: cs =>
    match checkColumnNulls df c with
    | .error e => .error e
    | .ok _ => checkForNulls df cs

/-! ## `DataQualityManager._check_value_ranges`

Per entry `col: (min_val, max_val)`:
`df.filter((F.col(col) < min_val) | (F.col(col) > max_val)).count()`,
raise on a positive count, each entry in its own rewrapping `try/except`. -/

/-- The range filter's predicate on one cell. -/
def outOfRangeB (v : Value) (minVal maxVal : Int) : Bool :=
  vltInt v minVal || vgtInt v maxVal

/-- `df.filter((col < min) | (col > max)).count()`. -/
def outOfRangeCount (df : DataFrame) (c : String) (minVal maxVal : Int) : Nat :=
  df.countP (fun r => outOfRangeB (getCol r c) minVal maxVal)

/-- One iteration of the `_check_value_ranges` loop. -/
def checkColumnRange (df : DataFrame) (c : String) (minVal maxVal : Int) :
    Except Exc Unit :=
  let body : Except Exc Unit :=
    if 0 < outOfRangeCount df c minVal maxVal then
      .error (.runtimeError ("Value range check failed: Column " ++ c ++ " has "
        ++ toString (outOfRangeCount df c minVal maxVal)
        ++ " values out of range."))
    else
      .ok ()
  match body with
  | .ok u => .ok u
  | .error e =>
    .error (.runtimeError ("Failed to check value ranges for column " ++ c
      ++ ": " ++ excMsg e))

/-- `_check_value_ranges`: the loop over the `column_ranges` entries (the
Python dict iterated in insertion order). -/
def checkValueRanges (df : DataFrame) : List (String × Int × Int) → Except Exc Unit
  | [] => .ok ()
  | (c, mn, mx) :: rest =>
    match checkColumnRange df c mn mx with
    | .error e => .error e
    | .ok _ => checkValueRanges df rest

/-! ## `DataQualityManager._check_referential_integrity`

`df.join(reference_df, df[jc] == reference_df[jc], "left_anti").count()`:
rows of `df` with no equal join key in `reference_df` (NULL matching
nothing), raising on a positive count inside a rewrapping `try/except`. -/

/-- The anti-join's unmatched-row count. -/
def unmatchedCount (df referenceDf : DataFrame) (joinColumn : String) : Nat :=
  df.countP (fun r =>
    !(referenceDf.any (fun r2 => veqVal (getCol r joinColumn) (getCol r2 joinColumn))))

/-- `_check_referential_integrity`. -/
def checkReferentialIntegrity (df referenceDf : DataFrame) (joinColumn : String) :
    Except Exc Unit :=
  let body : Except Exc Unit :=
    if 0 < unmatchedCount df referenceDf joinColumn then
      .error (.runtimeError ("Referential integrity check failed: "
        ++ toString (unmatchedCount df referenceDf joinColumn)
        ++ " records in " ++ joinColumn ++ " do not match the reference data."))
    else
      .ok ()
  match body with
  | .ok u => .ok u
  | .error e =>
    .error (.runtimeError ("Failed to check referential integrity for column "
      ++ joinColumn ++ ": " ++ excMsg e))

/-! ## `DataQualityManager._check_consistency_between_fields`

Per pair `(col1, col2)`: `df.filter(F.col(col1) > F.col(col2)).count()`,
raising on a positive count, each pair in its own rewrapping `try/except`. -/

/-- `df.filter(F.col(c1) > F.col(c2)).count()`. -/
def inconsistencyCount (df : DataFrame) (c1 c2 : String) : Nat :=
  df.countP (fun r => vgtVal (getCol r c1) (getCol r c2))

/-- One iteration of the `_check_consistency_between_fields` loop. -/
def checkPairConsistency (df : DataFrame) (c1 c2 : String) : Except Exc Unit :=
  let body : Except Exc Unit :=
    if 0 < inconsistencyCount df c1 c2 then
      .error (.runtimeError ("Consistency check failed: "
        ++ toString (inconsistencyCount df c1 c2) ++ " records have " ++ c1
        ++ " greater than " ++ c2 ++ "."))
    else
      .ok ()
  match body with
  | .ok u => .ok u
  | .error e =>
    .error (.runtimeError ("Failed to check consistency between fields " ++ c1
      ++ " and " ++ c2 ++ ": " ++ excMsg e))

/-- `_check_consistency_between_fields`: the loop over `consistency_pairs`. -/
def checkConsistency (df : DataFrame) : List (String × String) → Except Exc Unit
  | [] => .ok ()
  | (c1, c2) :: rest =>
    match checkPairConsistency df c1 c2 with
    | .error e => .error e
    | .ok _ => checkConsistency df rest

/-! ## `DataQualityManager._handle_multiple_files`

```python
if isinstance(key_columns, str): key_columns = [key_columns]
key_columns = list(set(['input_file_name'] + key_columns))
if not order_by: order_by = ['input_file_name']
elif isinstance(order_by, str): order_by = [order_by]
order_by_clause = ", ".join([f"{col} DESC"
    for col in ['input_file_name'] + order_by if col not in ['input_file_name']])
```
then (DataFrame branch)
```python
window_spec = Window.partitionBy(key_columns).orderBy(*[F.col(col).desc() for col in order_by])
df = df.withColumn('rnr', F.row_number().over(window_spec)).filter(F.col('rnr') == 1).drop('rnr')
```
We embed the partition keys as `("input_file_name" :: key_columns).dedup`
(partitioning only depends on the set of columns, so Python's unordered
`set` is embedded by first-occurrence deduplication), and `row_number() = 1`
by keeping, per distinct key tuple, the row maximal under the descending
lexicographic order on the `order_by` tuple — Spark leaves ties among equal
order tuples unspecified, our embedding resolves them to the earliest row. -/

/-- Strict order on cells as Spark sorts them: NULL first (`DESC` puts
NULLs last, i.e. NULL is the least), integers by value, strings
lexicographically, with the constructor rank separating the kinds. -/
def valRank : Value → Nat
  | .null => 0
  | .int _ => 1
  | .str _ => 2

/-- `valLtB a b` : cell `a` sorts strictly before cell `b` ascending. -/
def valLtB : Value → Value → Bool
  | .int m, .int n => decide (m < n)
  | .str s, .str t => decide (s < t)
  | a, b => decide (valRank a < valRank b)

/-- Lexicographic strict order on order-by tuples. -/
def lexLtB : List Value → List Value → Bool
  | _, [] => false
  | [], _ :: _ => true
  | a :: as, b :: bs => valLtB a b || (decide (a = b) && lexLtB as bs)

/-- The tuple of order-by cells of a row. -/
def obTuple (orderBy : List String) (r : Row) : List Value :=
  orderBy.map (fun c => getCol r c)

/-- The row that `row_number() = 1` keeps within one partition: the row
maximal under the descending order on its order-by tuple, earliest row
winning ties. -/
def pickLatest (orderBy : List String) : List Row → Option Row
  | [] => none
  | r :: rest =>
    match pickLatest orderBy rest with
    | none => some r
    | some best =>
      if lexLtB (obTuple orderBy r) (obTuple orderBy best) then some best else some r

/-- `if not order_by: order_by = ['input_file_name']`. -/
def effectiveOrderBy (orderBy : List String) : List String :=
  if orderBy.isEmpty then ["input_file_name"] else orderBy

/-- The partition keys: the supplied key columns with `input_file_name`
always added (`list(set(['input_file_name'] + key_columns))`). -/
def augmentedKeyColumns (keyColumns : List String) : List String :=
  ("input_file_name" :: keyColumns).dedup

/-- `_handle_multiple_files`, DataFrame branch: one surviving row per
distinct partition-key tuple. -/
def handleMultipleFiles (df : DataFrame) (keyColumns orderBy : List String) :
    DataFrame :=
  ((df.map (keyOf (augmentedKeyColumns keyColumns))).dedup).filterMap
    (fun k => pickLatest (effectiveOrderBy orderBy)
      (df.filter (fun r => decide (keyOf (augmentedKeyColumns keyColumns) r = k))))

/-- `order_by_clause`: the comprehension over `['input_file_name'] + order_by`
keeps only columns other than `input_file_name` and suffixes each with
` DESC`. -/
def orderByClause (orderBy : List String) : String :=
  String.intercalate ", "
    ((("input_file_name" :: orderBy).filter
      (fun col => !(["input_file_name"].contains col))).map (fun col => col ++ " DESC"))

/-- The text of the `use_sql=True` query of `_handle_multiple_files` up to
the `ORDER BY` interpolation hole (whitespace condensed). -/
def recentDataQueryPrefix (keyCols : List String) : String :=
  "CREATE OR REPLACE TEMPORARY VIEW temp_recent_data AS SELECT * FROM ("
    ++ "SELECT t.*, ROW_NUMBER() OVER (PARTITION BY "
    ++ String.intercalate ", " keyCols ++ " ORDER BY "

/-- The text of that query after the `ORDER BY` interpolation hole. -/
def recentDataQuerySuffix : String :=
  ") AS rnr FROM temp_original_data t) x WHERE rnr = 1"

/-- The SQL text of the `use_sql=True` branch of `_handle_multiple_files`:
the f-string with its two interpolation holes, the partition columns and
the order-by clause. -/
def recentDataQuery (keyCols orderBy : List String) : String :=
  recentDataQueryPrefix keyCols
    ++ orderByClause (effectiveOrderBy orderBy)
    ++ recentDataQuerySuffix

/-! ## `merge_management.py`

The module's engine calls (`spark.sql`) are embedded as a function from the
submitted SQL text to the engine's `Except` outcome, so the `try/except
... raise` structure of each Python function is visible in the embedding. -/

/-- The query text submitted by `get_pre_merge_version`. -/
def describeHistoryQuery (databaseName tableName : String) : String :=
  "DESCRIBE HISTORY " ++ databaseName ++ "." ++ tableName ++ " LIMIT 1"

/-- `get_pre_merge_version`: submit the DESCRIBE HISTORY query; on engine
failure, write a log message and re-raise the caught exception itself
(bare `raise`). -/
def getPreMergeVersion (engine : String → Except Exc Int)
    (databaseName tableName : String) : Except Exc Int :=
  match engine (describeHistoryQuery databaseName tableName) with
  | .ok v => .ok v
  | .error e => .error e

/-- `generate_merge_sql`: the ON condition joined from the comma-separated
`key_columns` string, each piece stripped. -/
def generateMergeSql (viewName databaseName tableName keyColumns : String) :
    String :=
  let matchSql := String.intercalate " AND "
    ((keyColumns.splitOn ",").map (fun col => "s." ++ col.trim ++ " = t." ++ col.trim))
  "MERGE INTO " ++ databaseName ++ "." ++ tableName ++ " AS t USING "
    ++ viewName ++ " AS s ON " ++ matchSql
    ++ " WHEN MATCHED THEN UPDATE SET * WHEN NOT MATCHED THEN INSERT *"

/-- The MERGE statement as the specification describes it, from a list of
already-stripped key columns: target `database.table` aliased `t`, source
view aliased `s`, ON the AND-conjunction of one equality `s.k = t.k` per
key column, with exactly the clauses `WHEN MATCHED THEN UPDATE SET *` and
`WHEN NOT MATCHED THEN INSERT *`.  Stated for the refinement theorem
comparing it with `generateMergeSql`. -/
def mergeSqlSpec (viewName databaseName tableName : String)
    (cols : List String) : String :=
  "MERGE INTO " ++ databaseName ++ "." ++ tableName ++ " AS t USING "
    ++ viewName ++ " AS s ON "
    ++ String.intercalate " AND " (cols.map (fun c => "s." ++ c ++ " = t." ++ c))
    ++ " WHEN MATCHED THEN UPDATE SET * WHEN NOT MATCHED THEN INSERT *"

/-- `execute_merge_and_get_post_version`: run the MERGE through the engine;
on failure log and re-raise the same exception; on success return
`pre_merge_version + 1` (the second `try` block is a plain integer
increment and cannot fail). -/
def executeMergeAndGetPostVersion (engine : String → Except Exc Unit)
    (mergeSql : String) (preMergeVersion : Int) : Except Exc Int :=
  match engine mergeSql with
  | .error e => .error e
  | .ok _ => .ok (preMergeVersion + 1)

/-- The version-diff query text of `display_newly_merged_data`. -/
def mergedDataSql (databaseName tableName : String)
    (preMergeVersion postMergeVersion : Int) : String :=
  "SELECT * FROM " ++ databaseName ++ "." ++ tableName ++ " VERSION AS OF "
    ++ toString postMergeVersion
    ++ " EXCEPT SELECT * FROM " ++ databaseName ++ "." ++ tableName
    ++ " VERSION AS OF " ++ toString preMergeVersion

/-- `display_newly_merged_data`: submit the EXCEPT query and display
`merged_data_df.limit(10)`; on engine failure log and re-raise the same
exception.  The displayed frame is the embedded return value. -/
def displayNewlyMergedData (engine : String → Except Exc DataFrame)
    (databaseName tableName : String) (preMergeVersion postMergeVersion : Int) :
    Except Exc DataFrame :=
  match engine (mergedDataSql databaseName tableName preMergeVersion postMergeVersion) with
  | .ok mergedDataDf => .ok (mergedDataDf.take 10)
  | .error e => .error e

/-! ## `DataQualityManager.perform_data_quality_checks`

The method's body is straight-line: an optional `_handle_multiple_files`
step, an *unconditional* `_check_for_duplicates` call, then one optional
step per parameter, finally `createOrReplaceTempView("cleaned_data_view")`;
the whole body sits in a `try/except` that wraps any exception into a fresh
`RuntimeError("Data quality checks failed: ...")`.  We embed the body as a
list of (label, step) pairs executed in order, recording which steps ran. -/

/-- The parameters of `perform_data_quality_checks` (and `run_all_checks`).
Python truthiness of a list/string is non-emptiness; a DataFrame object is
always truthy, so `reference_df` is an `Option`. -/
structure QualityParams where
  keyColumns : List String
  criticalColumns : List String
  columnRanges : List (String × Int × Int)
  referenceDf : Option DataFrame
  joinColumn : String
  consistencyPairs : List (String × String)
  columnsToExclude : List String
  orderBy : List String
deriving DecidableEq

/-- The labels of the validation passes. -/
inductive Check where
  | handlingMultipleFiles
  | duplicateCheck
  | nullValuesCheck
  | valueRangeCheck
  | referentialIntegrityCheck
  | fieldConsistencyCheck
  | excludeColumns
deriving DecidableEq, Repr

/-- `df.drop(*columns_to_exclude)`. -/
def dropColumns (df : DataFrame) (cols : List String) : DataFrame :=
  df.map (fun r => r.filter (fun kv => !(cols.contains kv.1)))

/-- One labelled validation pass of the pipeline. -/
abbrev QStep : Type := Check × (DataFrame → Except Exc DataFrame)

/-- The `Handling Multiple Files` pass as a step. -/
def handlingStep (p : QualityParams) : QStep :=
  (Check.handlingMultipleFiles,
    fun df => .ok (handleMultipleFiles df p.keyColumns p.orderBy))

/-- The `Duplicate Check` pass as a step. -/
def duplicateStep (p : QualityParams) : QStep :=
  (Check.duplicateCheck,
    fun df => (checkForDuplicates df p.keyColumns).map (fun _ => df))

/-- The `Null Values Check` pass as a step. -/
def nullStep (p : QualityParams) : QStep :=
  (Check.nullValuesCheck,
    fun df => (checkForNulls df p.criticalColumns).map (fun _ => df))

/-- The `Value Range Check` pass as a step. -/
def rangeStep (p : QualityParams) : QStep :=
  (Check.valueRangeCheck,
    fun df => (checkValueRanges df p.columnRanges).map (fun _ => df))

/-- The `Referential Integrity Check` pass against `ref` as a step. -/
def refIntegrityStep (p : QualityParams) (ref : DataFrame) : QStep :=
  (Check.referentialIntegrityCheck,
    fun df => (checkReferentialIntegrity df ref p.joinColumn).map (fun _ => df))

/-- The `Field Consistency Check` pass as a step. -/
def consistencyStep (p : QualityParams) : QStep :=
  (Check.fieldConsistencyCheck,
    fun df => (checkConsistency df p.consistencyPairs).map (fun _ => df))

/-- The `Exclude Columns` pass as a step. -/
def excludeStep (p : QualityParams) : QStep :=
  (Check.excludeColumns,
    fun df => .ok (dropColumns df p.columnsToExclude))

/-- The steps guarded by their parameters, shared by both pipeline entry
points: null check, range check, referential integrity, field consistency,
column exclusion, each present exactly when its Python `if` guard is
truthy. -/
def guardedTailSteps (p : QualityParams) : List QStep :=
  (if !p.criticalColumns.isEmpty then [nullStep p] else [])
  ++ (if !p.columnRanges.isEmpty then [rangeStep p] else [])
  ++ (match p.referenceDf with
    | some ref => if !p.joinColumn.isEmpty then [refIntegrityStep p ref] else []
    | none => [])
  ++ (if !p.consistencyPairs.isEmpty then [consistencyStep p] else [])
  ++ (if !p.columnsToExclude.isEmpty then [excludeStep p] else [])

/-- The passes the body of `perform_data_quality_checks` executes, in
source order.  The guard of each entry is the Python `if` around the
corresponding call; `_check_for_duplicates` (line 335) has none. -/
def qualitySteps (p : QualityParams) : List QStep :=
  (if !p.keyColumns.isEmpty then [handlingStep p] else [])
  ++ [duplicateStep p]
  ++ guardedTailSteps p

/-- Run the steps in order on the evolving frame, recording the labels of
the steps reached; stop at the first raising step. -/
def runSteps : List QStep → DataFrame → List Check × Except Exc DataFrame
  | [], df => ([], .ok df)
  | (c, f) :: rest, df =>
    match f df with
    | .error e => ([c], .error e)
    | .ok df2 =>
      let (tr, r) := runSteps rest df2
      (c :: tr, r)

/-- The `checks_to_perform` list logged at lines 313–325 of
`perform_data_quality_checks` (the inline re-listing, which never mentions
the duplicate check). -/
def checksToPerformList (p : QualityParams) : List String :=
  (if !p.keyColumns.isEmpty then ["Handling Multiple Files"] else [])
  ++ (if !p.criticalColumns.isEmpty then ["Null Values Check"] else [])
  ++ (if !p.columnRanges.isEmpty then ["Value Range Check"] else [])
  ++ (match p.referenceDf with
    | some _ => if !p.joinColumn.isEmpty then ["Referential Integrity Check"] else []
    | none => [])
  ++ (if !p.consistencyPairs.isEmpty then ["Field Consistency Check"] else [])
  ++ (if !p.columnsToExclude.isEmpty then ["Exclude Columns"] else [])

/-- `perform_data_quality_checks`: run the passes, register the surviving
frame under the view name `"cleaned_data_view"` and return that name (the
embedded success value is the pair of the name and the registered frame);
any exception is wrapped by the outer handler into a fresh RuntimeError. -/
def performDataQualityChecks (df : DataFrame) (p : QualityParams) :
    List Check × Except Exc (String × DataFrame) :=
  let (trace, r) := runSteps (qualitySteps p) df
  match r with
  | .ok finalDf => (trace, .ok ("cleaned_data_view", finalDf))
  | .error e =>
    (trace, .error (.runtimeError ("Data quality checks failed: " ++ excMsg e)))

/-! ## `DataQualityManager.run_all_checks`

Its first statement is
```python
df = self._handle_multiple_files(df, key_columns, use_sql=use_sql)
```
but the method's signature is
`_handle_multiple_files(self, spark, df, key_columns, order_by=None, use_sql=False)`:
the call supplies only two positional arguments, so Python binds
`spark=df`, `df=key_columns` and raises a `TypeError` for the missing
required `key_columns` before the body ever runs.  We embed Python's
binding of positional and keyword arguments to parameters to capture
this. -/

/-- Python call binding: the parameters filled by `npos` positional
arguments and the given keyword names; returns the required parameters
left unfilled. -/
def missingRequiredArgs (params required : List String) (npos : Nat)
    (kwnames : List String) : List String :=
  required.filter (fun r => !((params.take npos ++ kwnames).contains r))

/-- The parameters of `_handle_multiple_files` after `self`. -/
def handleMultipleFilesParams : List String :=
  ["spark", "df", "key_columns", "order_by", "use_sql"]

/-- Its parameters without a default value. -/
def handleMultipleFilesRequired : List String :=
  ["spark", "df", "key_columns"]

/-- Binding outcome of a call to `_handle_multiple_files` with `npos`
positional arguments and keyword names `kwnames`: `TypeError` when a
required parameter stays unfilled. -/
def bindHandleMultipleFilesCall (npos : Nat) (kwnames : List String) :
    Except Exc Unit :=
  match missingRequiredArgs handleMultipleFilesParams handleMultipleFilesRequired
      npos kwnames with
  | [] => .ok ()
  | missing =>
    .error (.typeError ("_handle_multiple_files() missing " ++ toString missing.length
      ++ " required positional argument: " ++ String.intercalate ", " missing))

/-- The passes of `run_all_checks` after its first statement (duplicate
check, then the same optional passes as `perform_data_quality_checks`,
without the handling-multiple-files step). -/
def runAllChecksRemainingSteps (p : QualityParams) : List QStep :=
  [duplicateStep p] ++ guardedTailSteps p

/-- `run_all_checks`.  The first statement's call binding
(`npos = 2`, keywords `use_sql`) decides everything: when it raises — and
it always does — the outer handler wraps the `TypeError` into a fresh
`RuntimeError`.  The `.ok` branch embeds the rest of the body; with this
call shape it is unreachable. -/
def runAllChecks (df : DataFrame) (p : QualityParams) :
    Except Exc (String × DataFrame) :=
  let body : Except Exc (String × DataFrame) :=
    match bindHandleMultipleFilesCall 2 ["use_sql"] with
    | .error e => .error e
    | .ok _ =>
      let df1 := handleMultipleFiles df p.keyColumns []
      match (runSteps (runAllChecksRemainingSteps p) df1).2 with
      | .error e => .error e
      | .ok finalDf => .ok ("cleaned_data_view", finalDf)
  match body with
  | .ok r => .ok r
  | .error e =>
    .error (.runtimeError ("Data quality checks failed: " ++ excMsg e))

/-- The fixed order of pass labels of `perform_data_quality_checks`: the
optional handling-multiple-files pass, the unconditional duplicate check,
then the optional passes in source order. -/
def plannedChecks (p : QualityParams) : List Check :=
  (if !p.keyColumns.isEmpty then [Check.handlingMultipleFiles] else [])
  ++ [Check.duplicateCheck]
  ++ (if !p.criticalColumns.isEmpty then [Check.nullValuesCheck] else [])
  ++ (if !p.columnRanges.isEmpty then [Check.valueRangeCheck] else [])
  ++ (match p.referenceDf with
    | some _ =>
      if !p.joinColumn.isEmpty then [Check.referentialIntegrityCheck] else []
    | none => [])
  ++ (if !p.consistencyPairs.isEmpty then [Check.fieldConsistencyCheck] else [])
  ++ (if !p.columnsToExclude.isEmpty then [Check.excludeColumns] else [])

/-! ## Concrete frames and parameter records used as test inputs -/

/-- A row of file `a` with key value 1. -/
def exRowA : Row := [("input_file_name", Value.str "a"), ("k", Value.int 1)]

/-- A row of file `b` with the same key value 1. -/
def exRowB : Row := [("input_file_name", Value.str "b"), ("k", Value.int 1)]

/-- A frame holding the same key once per input file. -/
def exDfTwoFiles : DataFrame := [exRowA, exRowB]

/-- A one-row frame. -/
def exDfSingle : DataFrame := [exRowA]

/-- Parameters with every optional rule absent (all Python-falsy). -/
def emptyParams : QualityParams :=
  { keyColumns := [], criticalColumns := [], columnRanges := [],
    referenceDf := none, joinColumn := "", consistencyPairs := [],
    columnsToExclude := [], orderBy := [] }

/-- Parameters supplying only `key_columns = ["k"]`. -/
def keyOnlyParams : QualityParams :=
  { keyColumns := ["k"], criticalColumns := [], columnRanges := [],
    referenceDf := none, joinColumn := "", consistencyPairs := [],
    columnsToExclude := [], orderBy := [] }

/-- A concrete engine exception used to probe the exception handlers. -/
def exEngineError : Exc := Exc.analysisException "boom"

/-! # Theorems -/

/-! ## Raise-iff-violation lemmas for the individual checks (C1) -/

theorem raisesB_checkForDuplicates (df : DataFrame) (ks : List String) :
    raisesB (checkForDuplicates df ks) = true ↔ 0 < duplicateCount df ks := by
  by_cases h : 0 < duplicateCount df ks <;>
    simp [checkForDuplicates, checkForDuplicatesRun, raisesB, h]

theorem duplicateCount_pos_iff (df : DataFrame) (ks : List String) :
    0 < duplicateCount df ks ↔ ∃ k, 1 < (df.map (keyOf ks)).count k := by
  unfold duplicateCount
  rw [← List.countP_eq_length_filter, List.countP_pos_iff]
  constructor
  · rintro ⟨k, _, hcount⟩
    exact ⟨k, by simpa using hcount⟩
  · rintro ⟨k, hcount⟩
    refine ⟨k, List.mem_dedup.mpr (List.count_pos_iff.mp
      (Nat.lt_trans Nat.zero_lt_one hcount)), by simpa using hcount⟩

theorem raisesB_checkColumnNulls (df : DataFrame) (c : String) :
    raisesB (checkColumnNulls df c) = true ↔ 0 < nullCount df c := by
  by_cases h : 0 < nullCount df c <;> simp [checkColumnNulls, raisesB, h]

theorem raisesB_checkForNulls (df : DataFrame) (cs : List String) :
    raisesB (checkForNulls df cs) = true ↔ ∃ c ∈ cs, 0 < nullCount df c := by
  induction cs with
  | nil => simp [checkForNulls, raisesB]
  | cons c cs ih =>
    by_cases h : 0 < nullCount df c
    · simp [checkForNulls, checkColumnNulls, h, raisesB]
    · simpa [checkForNulls, checkColumnNulls, h, raisesB] using ih

theorem nullCount_pos_iff (df : DataFrame) (c : String) :
    0 < nullCount df c ↔ ∃ r ∈ df, getCol r c = Value.null := by
  unfold nullCount
  rw [List.countP_pos_iff]
  simp

theorem raisesB_checkColumnRange (df : DataFrame) (c : String) (mn mx : Int) :
    raisesB (checkColumnRange df c mn mx) = true ↔ 0 < outOfRangeCount df c mn mx := by
  by_cases h : 0 < outOfRangeCount df c mn mx <;>
    simp [checkColumnRange, raisesB, h]

theorem raisesB_checkValueRanges (df : DataFrame)
    (ranges : List (String × Int × Int)) :
    raisesB (checkValueRanges df ranges) = true ↔
      ∃ e ∈ ranges, 0 < outOfRangeCount df e.1 e.2.1 e.2.2 := by
  induction ranges with
  | nil => simp [checkValueRanges, raisesB]
  | cons e rest ih =>
    obtain ⟨c, mn, mx⟩ := e
    by_cases h : 0 < outOfRangeCount df c mn mx
    · simp [checkValueRanges, checkColumnRange, h, raisesB]
    · simpa [checkValueRanges, checkColumnRange, h, raisesB] using ih

theorem outOfRangeCount_pos_iff (df : DataFrame) (c : String) (mn mx : Int) :
    0 < outOfRangeCount df c mn mx ↔
      ∃ r ∈ df, (vltInt (getCol r c) mn = true ∨ vgtInt (getCol r c) mx = true) := by
  unfold outOfRangeCount
  rw [List.countP_pos_iff]
  simp [outOfRangeB]

theorem raisesB_checkReferentialIntegrity (df referenceDf : DataFrame)
    (jc : String) :
    raisesB (checkReferentialIntegrity df referenceDf jc) = true ↔
      0 < unmatchedCount df referenceDf jc := by
  by_cases h : 0 < unmatchedCount df referenceDf jc <;>
    simp [checkReferentialIntegrity, raisesB, h]

theorem unmatchedCount_pos_iff (df referenceDf : DataFrame) (jc : String) :
    0 < unmatchedCount df referenceDf jc ↔
      ∃ r ∈ df, referenceDf.any
        (fun r2 => veqVal (getCol r jc) (getCol r2 jc)) = false := by
  unfold unmatchedCount
  rw [List.countP_pos_iff]
  simp

theorem raisesB_checkPairConsistency (df : DataFrame) (c1 c2 : String) :
    raisesB (checkPairConsistency df c1 c2) = true ↔
      0 < inconsistencyCount df c1 c2 := by
  by_cases h : 0 < inconsistencyCount df c1 c2 <;>
    simp [checkPairConsistency, raisesB, h]

theorem raisesB_checkConsistency (df : DataFrame)
    (pairs : List (String × String)) :
    raisesB (checkConsistency df pairs) = true ↔
      ∃ pr ∈ pairs, 0 < inconsistencyCount df pr.1 pr.2 := by
  induction pairs with
  | nil => simp [checkConsistency, raisesB]
  | cons pr rest ih =>
    obtain ⟨c1, c2⟩ := pr
    by_cases h : 0 < inconsistencyCount df c1 c2
    · simp [checkConsistency, checkPairConsistency, h, raisesB]
    · simpa [checkConsistency, checkPairConsistency, h, raisesB] using ih

theorem inconsistencyCount_pos_iff (df : DataFrame) (c1 c2 : String) :
    0 < inconsistencyCount df c1 c2 ↔
      ∃ r ∈ df, vgtVal (getCol r c1) (getCol r c2) = true := by
  unfold inconsistencyCount
  rw [List.countP_pos_iff]

/-- **C1.** Every executed quality check raises exactly when its violation
count is positive: the duplicate check raises iff some key-tuple occurs in
more than one row, the null check raises iff some listed critical column
holds a NULL in some row, the range check raises iff some listed column
holds a value strictly below its minimum or strictly above its maximum,
the referential-integrity check raises iff some row matches no reference
row on the join column, and the consistency check raises iff some listed
pair has a row with the first field greater than the second; otherwise the
check returns without raising. -/
theorem quality_checks_raise_iff_positive_violation_count
    (df referenceDf : DataFrame) (keyColumns criticalColumns : List String)
    (columnRanges : List (String × Int × Int)) (joinColumn : String)
    (consistencyPairs : List (String × String)) :
    (raisesB (checkForDuplicates df keyColumns) = true ↔
      ∃ k, 1 < (df.map (keyOf keyColumns)).count k)
    ∧ (raisesB (checkForNulls df criticalColumns) = true ↔
      ∃ c ∈ criticalColumns, ∃ r ∈ df, getCol r c = Value.null)
    ∧ (raisesB (checkValueRanges df columnRanges) = true ↔
      ∃ e ∈ columnRanges, ∃ r ∈ df,
        (vltInt (getCol r e.1) e.2.1 = true ∨ vgtInt (getCol r e.1) e.2.2 = true))
    ∧ (raisesB (checkReferentialIntegrity df referenceDf joinColumn) = true ↔
      ∃ r ∈ df, referenceDf.any
        (fun r2 => veqVal (getCol r joinColumn) (getCol r2 joinColumn)) = false)
    ∧ (raisesB (checkConsistency df consistencyPairs) = true ↔
      ∃ pr ∈ consistencyPairs, ∃ r ∈ df,
        vgtVal (getCol r pr.1) (getCol r pr.2) = true) := by
  refine ⟨?_, ?_, ?_, ?_, ?_⟩
  · rw [raisesB_checkForDuplicates, duplicateCount_pos_iff]
  · rw [raisesB_checkForNulls]
    exact exists_congr fun c => and_congr_right fun _ => nullCount_pos_iff df c
  · rw [raisesB_checkValueRanges]
    exact exists_congr fun e => and_congr_right fun _ =>
      outOfRangeCount_pos_iff df e.1 e.2.1 e.2.2
  · rw [raisesB_checkReferentialIntegrity]
    exact unmatchedCount_pos_iff df referenceDf joinColumn
  · rw [raisesB_checkConsistency]
    exact exists_congr fun pr => and_congr_right fun _ =>
      inconsistencyCount_pos_iff df pr.1 pr.2

/-! ## Merge manager claims (C3, C7, C8) -/

/-- **C3.** Whenever the engine executes the MERGE statement without
raising, `execute_merge_and_get_post_version` returns exactly the
pre-merge version plus one as the post-merge version. -/
theorem execute_merge_returns_pre_version_plus_one
    (engine : String → Except Exc Unit) (mergeSql : String) (v : Int)
    (h : engine mergeSql = .ok ()) :
    executeMergeAndGetPostVersion engine mergeSql v = .ok (v + 1) := by
  simp [executeMergeAndGetPostVersion, h]

theorem execute_merge_returns_pre_version_plus_one_witness :
    executeMergeAndGetPostVersion (fun _ => .ok ()) "MERGE" 3 = .ok 4 :=
  execute_merge_returns_pre_version_plus_one (fun _ => .ok ()) "MERGE" 3 rfl

/-- **C7.** For every view, database, table and non-empty comma-separated
key-columns string, `generate_merge_sql` produces exactly the MERGE
statement the specification describes, over the comma-split and
whitespace-stripped key columns: target `database.table AS t`, source view
`AS s`, ON the AND-conjunction of `s.k = t.k` per key column, with exactly
the `WHEN MATCHED THEN UPDATE SET *` and `WHEN NOT MATCHED THEN INSERT *`
clauses. -/
theorem generate_merge_sql_refines_spec
    (viewName databaseName tableName keyColumns : String)
    (h : keyColumns ≠ "") :
    generateMergeSql viewName databaseName tableName keyColumns =
      mergeSqlSpec viewName databaseName tableName
        ((keyColumns.splitOn ",").map String.trim) := by
  unfold generateMergeSql mergeSqlSpec
  rw [List.map_map]
  rfl

theorem generate_merge_sql_refines_spec_witness :
    "id" ≠ "" ∧
    generateMergeSql "v" "db" "tbl" "id" =
      mergeSqlSpec "v" "db" "tbl" (("id".splitOn ",").map String.trim) :=
  ⟨by decide, generate_merge_sql_refines_spec "v" "db" "tbl" "id" (by decide)⟩

/-- **C8.** `display_newly_merged_data` builds the changed-rows query as
the EXCEPT of the table at the post-merge version minus the table at the
pre-merge version, and the frame it displays is the query result truncated
to at most 10 rows. -/
theorem display_newly_merged_data_diff_and_limit
    (engine : String → Except Exc DataFrame) (databaseName tableName : String)
    (preV postV : Int) (rows : DataFrame)
    (h : engine (mergedDataSql databaseName tableName preV postV) = .ok rows) :
    displayNewlyMergedData engine databaseName tableName preV postV =
      .ok (rows.take 10)
    ∧ (rows.take 10).length ≤ 10
    ∧ mergedDataSql databaseName tableName preV postV =
        "SELECT * FROM " ++ databaseName ++ "." ++ tableName
          ++ " VERSION AS OF " ++ toString postV
          ++ " EXCEPT SELECT * FROM " ++ databaseName ++ "." ++ tableName
          ++ " VERSION AS OF " ++ toString preV := by
  refine ⟨by simp [displayNewlyMergedData, h], ?_, rfl⟩
  rw [List.length_take]
  exact min_le_left _ _

theorem display_newly_merged_data_diff_and_limit_witness :
    displayNewlyMergedData (fun _ => .ok (List.replicate 11 exRowA)) "db" "tbl" 1 2 =
      .ok ((List.replicate 11 exRowA).take 10)
    ∧ ((List.replicate 11 exRowA).take 10).length ≤ 10
    ∧ mergedDataSql "db" "tbl" 1 2 =
        "SELECT * FROM " ++ "db" ++ "." ++ "tbl" ++ " VERSION AS OF " ++ toString (2 : Int)
          ++ " EXCEPT SELECT * FROM " ++ "db" ++ "." ++ "tbl"
          ++ " VERSION AS OF " ++ toString (1 : Int) :=
  display_newly_merged_data_diff_and_limit
    (fun _ => .ok (List.replicate 11 exRowA)) "db" "tbl" 1 2
    (List.replicate 11 exRowA) rfl

/-! ## Exception propagation (C6) -/

/-- **C6 (counterexample).** The quality checks do not re-raise the engine
exception unchanged: `_check_for_duplicates` turns a concrete engine
`AnalysisException` into a different, fresh `RuntimeError`. -/
theorem duplicate_check_replaces_engine_exception :
    checkForDuplicatesRun (Except.error exEngineError) ["k"] ≠
      Except.error exEngineError := by
  simp [checkForDuplicatesRun, exEngineError, excMsg]

/-- **C6 (amended).** When the underlying engine raises inside an operation
that catches it, the `merge_management` operations (`get_pre_merge_version`,
`execute_merge_and_get_post_version`, `display_newly_merged_data`) log and
re-raise the very same exception unchanged, while the `DataQualityManager`
checks replace it with a fresh `RuntimeError` whose message embeds the
original exception's message; no exception is suppressed. -/
theorem engine_exceptions_reraised_or_wrapped (e : Exc)
    (databaseName tableName mergeSql : String) (v preV postV : Int)
    (ks : List String) :
    getPreMergeVersion (fun _ => .error e) databaseName tableName = .error e
    ∧ executeMergeAndGetPostVersion (fun _ => .error e) mergeSql v = .error e
    ∧ displayNewlyMergedData (fun _ => .error e) databaseName tableName preV postV
        = .error e
    ∧ checkForDuplicatesRun (.error e) ks =
        .error (.runtimeError ("Failed to check for duplicates: " ++ excMsg e)) :=
  ⟨rfl, rfl, rfl, rfl⟩

/-! ## `run_all_checks` (C9) -/

/-- **C9.** `run_all_checks` raises a `RuntimeError` on every input and
never returns the temporary-view name: its first statement calls
`_handle_multiple_files` with only two positional arguments (shifting `df`
into the `spark` parameter), Python raises a `TypeError` for the missing
required `key_columns`, and the outer handler converts it into a
`RuntimeError`, whatever the frame and the other parameters are. -/
theorem run_all_checks_always_raises (df : DataFrame) (p : QualityParams) :
    runAllChecks df p =
      .error (.runtimeError ("Data quality checks failed: "
        ++ "_handle_multiple_files() missing 1 required positional argument: key_columns")) := by
  rfl

/-! ## The generated ORDER BY clause (C10) -/

/-- **C10.** When `order_by` is not provided, or names only
`input_file_name`, the ORDER BY part interpolated into the ROW_NUMBER
window of the generated SQL is the empty string, because `input_file_name`
is filtered out of the `order_by_clause` join; in general only the
explicit `order_by` columns other than `input_file_name` appear in the
clause. -/
theorem order_by_clause_filters_input_file_name (kc ob : List String) :
    orderByClause (effectiveOrderBy []) = ""
    ∧ orderByClause (effectiveOrderBy ["input_file_name"]) = ""
    ∧ recentDataQuery kc [] = recentDataQueryPrefix kc ++ "" ++ recentDataQuerySuffix
    ∧ recentDataQuery kc ["input_file_name"] =
        recentDataQueryPrefix kc ++ "" ++ recentDataQuerySuffix
    ∧ orderByClause (effectiveOrderBy ob) =
        String.intercalate ", "
          ((ob.filter (fun c => !(decide (c = "input_file_name")))).map
            (fun c => c ++ " DESC")) := by
  refine ⟨rfl, rfl, rfl, rfl, ?_⟩
  by_cases hob : ob.isEmpty
  · rw [List.isEmpty_iff] at hob
    subst hob
    rfl
  · unfold effectiveOrderBy orderByClause
    rw [if_neg hob]
    congr 1
    rw [List.filter_cons]
    simp

/-! ## `_handle_multiple_files` (C2): order lemmas and key uniqueness -/

theorem valLtB_irrefl (a : Value) : valLtB a a = false := by
  cases a <;> simp [valLtB, valRank]

theorem valLtB_asymm (a b : Value) (h : valLtB a b = true) : valLtB b a = false := by
  rcases a with _ | m | s <;> rcases b with _ | n | t <;>
    simp [valLtB, valRank] at h ⊢ <;>
    first
      | omega
      | exact h.le

theorem valLtB_total_ne (a b : Value) (h : a ≠ b) :
    valLtB a b = true ∨ valLtB b a = true := by
  rcases a with _ | m | s <;> rcases b with _ | n | t <;>
    simp [valLtB, valRank] at h ⊢ <;>
    first
      | omega
      | exact lt_or_gt_of_ne h
      | exact fun hd => h (String.ext hd)

theorem valLtB_cotrans (a b c : Value) (h : valLtB a c = true) :
    valLtB a b = true ∨ valLtB b c = true := by
  rcases a with _ | m | s <;> rcases b with _ | n | t <;> rcases c with _ | k | u <;>
    simp [valLtB, valRank] at h ⊢ <;>
    first
      | omega
      | exact (lt_or_le _ _).imp id (fun h2 => lt_of_le_of_lt h2 h)

theorem lexLtB_irrefl (x : List Value) : lexLtB x x = false := by
  induction x with
  | nil => rfl
  | cons a as ih => simp [lexLtB, valLtB_irrefl, ih]

theorem lexLtB_asymm (x y : List Value) (h : lexLtB x y = true) :
    lexLtB y x = false := by
  induction x generalizing y with
  | nil =>
    cases y with
    | nil => simp [lexLtB] at h
    | cons b bs => rfl
  | cons a as ih =>
    cases y with
    | nil => simp [lexLtB] at h
    | cons b bs =>
      simp only [lexLtB, Bool.or_eq_true, Bool.and_eq_true, decide_eq_true_eq] at h
      rcases h with h1 | ⟨heq, h2⟩
      · have hba := valLtB_asymm a b h1
        have hne : b ≠ a := by
          rintro rfl
          rw [valLtB_irrefl] at h1
          exact Bool.false_ne_true h1
        simp [lexLtB, hba, hne]
      · subst heq
        simp [lexLtB, valLtB_irrefl, ih bs h2]

theorem lexLtB_cotrans (x y z : List Value) (h : lexLtB x z = true) :
    lexLtB x y = true ∨ lexLtB y z = true := by
  induction x generalizing y z with
  | nil =>
    cases z with
    | nil => simp [lexLtB] at h
    | cons c cs =>
      cases y with
      | nil => exact Or.inr rfl
      | cons b bs => exact Or.inl rfl
  | cons a as ih =>
    cases z with
    | nil => simp [lexLtB] at h
    | cons c cs =>
      cases y with
      | nil => exact Or.inr rfl
      | cons b bs =>
        simp only [lexLtB, Bool.or_eq_true, Bool.and_eq_true, decide_eq_true_eq] at h ⊢
        rcases h with h1 | ⟨heq, h2⟩
        · rcases valLtB_cotrans a b c h1 with h' | h'
          · exact Or.inl (Or.inl h')
          · exact Or.inr (Or.inl h')
        · subst heq
          by_cases hab : a = b
          · subst hab
            rcases ih bs cs h2 with h' | h'
            · exact Or.inl (Or.inr ⟨rfl, h'⟩)
            · exact Or.inr (Or.inr ⟨rfl, h'⟩)
          · rcases valLtB_total_ne a b hab with h' | h'
            · exact Or.inl (Or.inl h')
            · exact Or.inr (Or.inl h')

theorem pickLatest_mem (ob : List String) (l : List Row) (r : Row)
    (h : pickLatest ob l = some r) : r ∈ l := by
  induction l generalizing r with
  | nil => simp [pickLatest] at h
  | cons r0 rest ih =>
    rcases hrec : pickLatest ob rest with _ | best
    · simp only [pickLatest, hrec] at h
      cases h
      exact List.mem_cons_self _ _
    · simp only [pickLatest, hrec] at h
      by_cases hlt : lexLtB (obTuple ob r0) (obTuple ob best) = true
      · rw [if_pos hlt] at h
        cases h
        exact List.mem_cons_of_mem _ (ih _ hrec)
      · rw [if_neg hlt] at h
        cases h
        exact List.mem_cons_self _ _

theorem pickLatest_isSome (ob : List String) (l : List Row) (h : l ≠ []) :
    (pickLatest ob l).isSome = true := by
  cases l with
  | nil => exact absurd rfl h
  | cons r0 rest =>
    rcases hrec : pickLatest ob rest with _ | best
    · simp [pickLatest, hrec]
    · simp only [pickLatest, hrec]
      split <;> rfl

theorem pickLatest_maximal (ob : List String) (l : List Row) (r : Row)
    (h : pickLatest ob l = some r) :
    ∀ r2 ∈ l, lexLtB (obTuple ob r) (obTuple ob r2) = false := by
  induction l generalizing r with
  | nil => simp [pickLatest] at h
  | cons r0 rest ih =>
    rcases hrec : pickLatest ob rest with _ | best
    · simp only [pickLatest, hrec] at h
      cases h
      have hrest : rest = [] := by
        cases rest with
        | nil => rfl
        | cons x xs =>
          have hs := pickLatest_isSome ob (x :: xs) (by simp)
          rw [hrec] at hs
          simp at hs
      subst hrest
      intro r2 hr2
      rw [List.mem_singleton] at hr2
      subst hr2
      exact lexLtB_irrefl _
    · simp only [pickLatest, hrec] at h
      by_cases hlt : lexLtB (obTuple ob r0) (obTuple ob best) = true
      · rw [if_pos hlt] at h
        cases h
        intro r2 hr2
        rcases List.mem_cons.mp hr2 with rfl | hr2
        · exact lexLtB_asymm _ _ hlt
        · exact ih _ hrec r2 hr2
      · rw [if_neg hlt] at h
        cases h
        intro r2 hr2
        rcases List.mem_cons.mp hr2 with rfl | hr2
        · exact lexLtB_irrefl _
        · have hbest := ih _ hrec r2 hr2
          cases hcur : lexLtB (obTuple ob r0) (obTuple ob r2) with
          | false => rfl
          | true =>
            rcases lexLtB_cotrans _ (obTuple ob best) _ hcur with h' | h'
            · exact absurd h' hlt
            · rw [hbest] at h'
              exact absurd h' Bool.false_ne_true

theorem map_keyOf_filterMap (kc : List String) (g : List Value → Option Row)
    (keys : List (List Value))
    (hg : ∀ k ∈ keys, ∃ r, g k = some r ∧ keyOf kc r = k) :
    (keys.filterMap g).map (keyOf kc) = keys := by
  induction keys with
  | nil => rfl
  | cons k ks ih =>
    obtain ⟨r, hr, hk⟩ := hg k (List.mem_cons_self _ _)
    rw [List.filterMap_cons, hr, List.map_cons, hk,
      ih (fun k' hk' => hg k' (List.mem_cons_of_mem _ hk'))]

/-- **C2 (counterexample).** With `key_columns = ["k"]`, a frame holding
the same key in two input files keeps both rows: the result of
`_handle_multiple_files` has two rows agreeing on all supplied key
columns, because the partition keys always include `input_file_name`. -/
theorem handle_multiple_files_not_unique_per_supplied_keys :
    ¬ ((handleMultipleFiles exDfTwoFiles ["k"] []).map (keyOf ["k"])).Nodup := by
  decide

/-- **C2 (amended).** For every frame and non-empty key-column list,
`_handle_multiple_files` returns exactly one row per distinct combination
of the augmented key columns — the supplied key columns together with
`input_file_name`, which the method always adds to the partition keys: the
result's augmented-key tuples are exactly the distinct input tuples, no
two result rows agree on them, every result row is an input row, and each
kept row is maximal (latest) under the descending order on the order-by
tuple among the input rows of its augmented key. -/
theorem handle_multiple_files_unique_per_augmented_keys
    (df : DataFrame) (keyColumns orderBy : List String) (hkc : keyColumns ≠ []) :
    ((handleMultipleFiles df keyColumns orderBy).map
        (keyOf (augmentedKeyColumns keyColumns))
      = (df.map (keyOf (augmentedKeyColumns keyColumns))).dedup)
    ∧ ((handleMultipleFiles df keyColumns orderBy).map
        (keyOf (augmentedKeyColumns keyColumns))).Nodup
    ∧ (∀ r ∈ handleMultipleFiles df keyColumns orderBy, r ∈ df)
    ∧ (∀ r ∈ handleMultipleFiles df keyColumns orderBy, ∀ r2 ∈ df,
        keyOf (augmentedKeyColumns keyColumns) r2
          = keyOf (augmentedKeyColumns keyColumns) r →
        lexLtB (obTuple (effectiveOrderBy orderBy) r)
          (obTuple (effectiveOrderBy orderBy) r2) = false) := by
  have hsrc : ∀ r ∈ handleMultipleFiles df keyColumns orderBy,
      ∃ k, pickLatest (effectiveOrderBy orderBy)
        (df.filter (fun r' =>
          decide (keyOf (augmentedKeyColumns keyColumns) r' = k))) = some r := by
    intro r hr
    unfold handleMultipleFiles at hr
    obtain ⟨k, _, hpk⟩ := List.mem_filterMap.mp hr
    exact ⟨k, hpk⟩
  have hkeys : (handleMultipleFiles df keyColumns orderBy).map
      (keyOf (augmentedKeyColumns keyColumns))
      = (df.map (keyOf (augmentedKeyColumns keyColumns))).dedup := by
    unfold handleMultipleFiles
    apply map_keyOf_filterMap
    intro k hk
    rw [List.mem_dedup] at hk
    obtain ⟨r, hr, hkey⟩ := List.mem_map.mp hk
    have hfil : r ∈ df.filter (fun r' =>
        decide (keyOf (augmentedKeyColumns keyColumns) r' = k)) :=
      List.mem_filter.mpr ⟨hr, by simp [hkey]⟩
    obtain ⟨r', hr'⟩ := Option.isSome_iff_exists.mp
      (pickLatest_isSome (effectiveOrderBy orderBy) _ (List.ne_nil_of_mem hfil))
    refine ⟨r', hr', ?_⟩
    have hmem := pickLatest_mem (effectiveOrderBy orderBy) _ r' hr'
    have hpred := (List.mem_filter.mp hmem).2
    simpa using hpred
  refine ⟨hkeys, ?_, ?_, ?_⟩
  · rw [hkeys]
    exact List.nodup_dedup _
  · intro r hr
    obtain ⟨k, hpk⟩ := hsrc r hr
    exact (List.mem_filter.mp (pickLatest_mem _ _ _ hpk)).1
  · intro r hr r2 hr2 hkeq
    obtain ⟨k, hpk⟩ := hsrc r hr
    have hrk : keyOf (augmentedKeyColumns keyColumns) r = k := by
      have hpred := (List.mem_filter.mp (pickLatest_mem _ _ _ hpk)).2
      simpa using hpred
    have hfil2 : r2 ∈ df.filter (fun r' =>
        decide (keyOf (augmentedKeyColumns keyColumns) r' = k)) :=
      List.mem_filter.mpr ⟨hr2, by simp [hkeq, hrk]⟩
    exact pickLatest_maximal _ _ _ hpk r2 hfil2

theorem handle_multiple_files_unique_per_augmented_keys_witness :
    (["k"] : List String) ≠ [] ∧
    (((handleMultipleFiles exDfTwoFiles ["k"] []).map
          (keyOf (augmentedKeyColumns ["k"]))
        = (exDfTwoFiles.map (keyOf (augmentedKeyColumns ["k"]))).dedup)
      ∧ ((handleMultipleFiles exDfTwoFiles ["k"] []).map
          (keyOf (augmentedKeyColumns ["k"]))).Nodup
      ∧ (∀ r ∈ handleMultipleFiles exDfTwoFiles ["k"] [], r ∈ exDfTwoFiles)
      ∧ (∀ r ∈ handleMultipleFiles exDfTwoFiles ["k"] [], ∀ r2 ∈ exDfTwoFiles,
          keyOf (augmentedKeyColumns ["k"]) r2 = keyOf (augmentedKeyColumns ["k"]) r →
          lexLtB (obTuple (effectiveOrderBy []) r)
            (obTuple (effectiveOrderBy []) r2) = false)) :=
  ⟨by decide,
    handle_multiple_files_unique_per_augmented_keys exDfTwoFiles ["k"] [] (by decide)⟩

/-! ## The pipeline of `perform_data_quality_checks` (C4, C5) -/

theorem mem_ite_singleton (c : Prop) [Decidable c] (x y : Check) :
    (x ∈ (if c then [y] else [])) ↔ (c ∧ x = y) := by
  split_ifs with h <;> simp [h]

theorem runSteps_ok_trace (steps : List QStep) (df : DataFrame)
    (h : ∃ d, (runSteps steps df).2 = .ok d) :
    (runSteps steps df).1 = steps.map Prod.fst := by
  induction steps generalizing df with
  | nil => rfl
  | cons s rest ih =>
    obtain ⟨c, f⟩ := s
    obtain ⟨d, hd⟩ := h
    rcases hf : f df with e | df2
    · simp only [runSteps, hf] at hd
      exact Except.noConfusion hd
    · rcases hrs : runSteps rest df2 with ⟨tr, r⟩
      simp only [runSteps, hf, hrs] at hd ⊢
      rw [List.map_cons, List.cons_eq_cons]
      refine ⟨rfl, ?_⟩
      have htr := ih df2 ⟨d, by rw [hrs]; exact hd⟩
      rw [hrs] at htr
      exact htr

theorem qualitySteps_labels (p : QualityParams) :
    (qualitySteps p).map Prod.fst = plannedChecks p := by
  rcases hr : p.referenceDf with _ | ref <;>
    simp only [qualitySteps, guardedTailSteps, plannedChecks, hr, List.map_append,
      apply_ite (List.map (Prod.fst (α := Check) (β := DataFrame → Except Exc DataFrame))),
      List.map_cons, List.map_nil, handlingStep, duplicateStep, nullStep, rangeStep,
      refIntegrityStep, consistencyStep, excludeStep] <;>
    simp [List.append_assoc]

theorem perform_ok_trace (df : DataFrame) (p : QualityParams)
    (res : String × DataFrame)
    (h : (performDataQualityChecks df p).2 = .ok res) :
    (performDataQualityChecks df p).1 = plannedChecks p := by
  rcases hrs : runSteps (qualitySteps p) df with ⟨tr, r⟩
  rcases r with e | fdf
  · simp only [performDataQualityChecks, hrs] at h
    exact Except.noConfusion h
  · simp only [performDataQualityChecks, hrs]
    have htr := runSteps_ok_trace (qualitySteps p) df ⟨fdf, by rw [hrs]⟩
    simp only [hrs] at htr
    rw [htr]
    exact qualitySteps_labels p

/-- **C4 (counterexample).** With no parameter supplied at all —
`key_columns` is the empty (falsy) list — `perform_data_quality_checks`
still executes the duplicate-detection pass. -/
theorem duplicate_check_runs_without_key_columns :
    emptyParams.keyColumns = []
    ∧ Check.duplicateCheck ∈ (performDataQualityChecks exDfSingle emptyParams).1 := by
  decide

/-- **C4 (amended).** On every run that completes, each validation pass
executes exactly when its triggering parameter is supplied — the
handling-multiple-files pass iff `key_columns` is supplied, the null scan
iff `critical_columns` is, the range scan iff `column_ranges` is, the
referential-integrity pass iff both `reference_df` and `join_column` are,
the consistency pass iff `consistency_pairs` is, and column exclusion iff
`columns_to_exclude` is — except duplicate detection, which executes
unconditionally, whether or not `key_columns` is supplied. -/
theorem perform_checks_trigger_iff_param_supplied (df : DataFrame)
    (p : QualityParams) (res : String × DataFrame)
    (h : (performDataQualityChecks df p).2 = .ok res) :
    (Check.handlingMultipleFiles ∈ (performDataQualityChecks df p).1 ↔
      p.keyColumns ≠ [])
    ∧ Check.duplicateCheck ∈ (performDataQualityChecks df p).1
    ∧ (Check.nullValuesCheck ∈ (performDataQualityChecks df p).1 ↔
      p.criticalColumns ≠ [])
    ∧ (Check.valueRangeCheck ∈ (performDataQualityChecks df p).1 ↔
      p.columnRanges ≠ [])
    ∧ (Check.referentialIntegrityCheck ∈ (performDataQualityChecks df p).1 ↔
      (p.referenceDf.isSome = true ∧ p.joinColumn ≠ ""))
    ∧ (Check.fieldConsistencyCheck ∈ (performDataQualityChecks df p).1 ↔
      p.consistencyPairs ≠ [])
    ∧ (Check.excludeColumns ∈ (performDataQualityChecks df p).1 ↔
      p.columnsToExclude ≠ []) := by
  have hstr : ∀ s : String, s.isEmpty = false ↔ s ≠ "" := by
    intro s
    rw [Bool.eq_false_iff]
    exact not_congr (String.isEmpty_iff s)
  rw [perform_ok_trace df p res h]
  rcases hr : p.referenceDf with _ | ref <;>
    refine ⟨?_, ?_, ?_, ?_, ?_, ?_, ?_⟩ <;>
      simp [plannedChecks, hr, mem_ite_singleton, hstr]

theorem perform_checks_trigger_iff_param_supplied_witness :
    (Check.handlingMultipleFiles ∈
        (performDataQualityChecks exDfSingle keyOnlyParams).1 ↔
      keyOnlyParams.keyColumns ≠ [])
    ∧ Check.duplicateCheck ∈ (performDataQualityChecks exDfSingle keyOnlyParams).1
    ∧ (Check.nullValuesCheck ∈ (performDataQualityChecks exDfSingle keyOnlyParams).1 ↔
      keyOnlyParams.criticalColumns ≠ [])
    ∧ (Check.valueRangeCheck ∈ (performDataQualityChecks exDfSingle keyOnlyParams).1 ↔
      keyOnlyParams.columnRanges ≠ [])
    ∧ (Check.referentialIntegrityCheck ∈
        (performDataQualityChecks exDfSingle keyOnlyParams).1 ↔
      (keyOnlyParams.referenceDf.isSome = true ∧ keyOnlyParams.joinColumn ≠ ""))
    ∧ (Check.fieldConsistencyCheck ∈
        (performDataQualityChecks exDfSingle keyOnlyParams).1 ↔
      keyOnlyParams.consistencyPairs ≠ [])
    ∧ (Check.excludeColumns ∈ (performDataQualityChecks exDfSingle keyOnlyParams).1 ↔
      keyOnlyParams.columnsToExclude ≠ []) :=
  perform_checks_trigger_iff_param_supplied exDfSingle keyOnlyParams
    ("cleaned_data_view", handleMultipleFiles exDfSingle ["k"] []) (by rfl)

/-- **C5 (counterexample).** On a two-row frame with no parameter supplied,
no check at all is triggered (the logged `checks_to_perform` list is
empty), yet `perform_data_quality_checks` does not return the view name:
the unconditionally executed duplicate check groups by the empty column
list, counts one group of two rows, and raises. -/
theorem perform_checks_raises_despite_no_triggered_checks :
    checksToPerformList emptyParams = []
    ∧ (performDataQualityChecks exDfTwoFiles emptyParams).2 =
        .error (.runtimeError ("Data quality checks failed: "
          ++ "Failed to check for duplicates: "
          ++ "Duplicate check failed: Found 1 duplicates based on key columns [].")) := by
  exact ⟨rfl, rfl⟩

/-- **C5 (amended).** On every input on which all executed passes succeed
(the passes triggered by their parameters plus the always-executed
duplicate detection), `perform_data_quality_checks` runs the passes in the
fixed source order — handling multiple files, duplicate detection, null
check, range check, referential integrity, field consistency, column
exclusion — registers the resulting frame as a temporary view, and
returns the view name, the string `cleaned_data_view`. -/
theorem perform_checks_order_and_view_name (df : DataFrame)
    (p : QualityParams) (name : String) (finalDf : DataFrame)
    (h : (performDataQualityChecks df p).2 = .ok (name, finalDf)) :
    (performDataQualityChecks df p).1 = plannedChecks p
    ∧ name = "cleaned_data_view" := by
  refine ⟨perform_ok_trace df p (name, finalDf) h, ?_⟩
  rcases hrs : runSteps (qualitySteps p) df with ⟨tr, r⟩
  rcases r with e | fdf
  · simp only [performDataQualityChecks, hrs] at h
    exact Except.noConfusion h
  · simp only [performDataQualityChecks, hrs] at h
    have := (Prod.mk.injEq _ _ _ _).mp (Except.ok.inj h)
    exact this.1.symm

theorem perform_checks_order_and_view_name_witness :
    (performDataQualityChecks exDfSingle keyOnlyParams).1 = plannedChecks keyOnlyParams
    ∧ "cleaned_data_view" = "cleaned_data_view" :=
  perform_checks_order_and_view_name exDfSingle keyOnlyParams "cleaned_data_view"
    (handleMultipleFiles exDfSingle ["k"] []) (by rfl)
